import Mathlib

/-!
Verification development for the script-manager tool (`manager.py`).

The program keeps a registry `{"scripts": {alias -> record}, "categories":
{path -> note}}` persisted as JSON, archives copies of added scripts under a
fixed storage directory, and dispatches argv either to a registered script or
to a management command.  Python dictionaries preserve insertion order, so the
two JSON objects are embedded as association lists with first-match lookup and
in-place update.
-/

set_option autoImplicit false

universe u

/-- Association-list lookup: the value bound to the first occurrence of key
`k`, mirroring Python dict lookup (keys are unique in any dict the program
builds, so first-match agrees with dict semantics). -/
def lookupA {α : Type u} (k : String) : List (String × α) → Option α
  | [] => none
  | (k2, v) :: rest => if k2 = k then some v else lookupA k rest

/-- Association-list update `d[k] = v`: replace the first binding of `k` in
place, or append a fresh binding at the end, exactly as assignment behaves on
an insertion-ordered Python dict. -/
def updateAssoc {α : Type u} (l : List (String × α)) (k : String) (v : α) :
    List (String × α) :=
  match l with
  | [] => [(k, v)]
  | (k2, v2) :: rest =>
    if k2 = k then (k, v) :: rest else (k2, v2) :: updateAssoc rest k v

/-- Splitting a character list at every occurrence of `c`, like Python
`str.split(c)`: the empty string yields `[[]]`, and adjacent separators give
empty segments. -/
def splitOnChar (c : Char) : List Char → List (List Char)
  | [] => [[]]
  | x :: xs =>
    let r := splitOnChar c xs
    if x = c then [] :: r
    else
      match r with
      | [] => [[x]]
      | h :: t => (x :: h) :: t

/-- Embeds `category.replace('\\', '/')` from `cmd_add_script` /
`cmd_add_category`: every backslash becomes a forward slash. -/
def replaceBackslash (s : String) : String :=
  String.mk (s.data.map (fun c => if c = '\\' then '/' else c))

/-- Embeds `target_alias.lstrip("-")` from `main`: drop every leading dash. -/
def stripDashes (s : String) : String :=
  String.mk (s.data.dropWhile (fun c => c == '-'))

/-- Embeds `target_alias.startswith("-")` from `main`. -/
def startsWithDash (s : String) : Bool :=
  match s.data with
  | [] => false
  | c :: _ => c == '-'

/-- Index of the last occurrence of `c` (Python `str.rfind`), threading the
current index. -/
def rfindIdxAux (c : Char) : List Char → Nat → Option Nat
  | [], _ => none
  | x :: xs, i =>
    match rfindIdxAux c xs (i + 1) with
    | some j => some j
    | none => if x = c then some i else none

/-- Index of the last occurrence of `c` in `cs`, or `none`. -/
def rfindIdx (c : Char) (cs : List Char) : Option Nat :=
  rfindIdxAux c cs 0

/-- Embeds `pathlib.PurePosixPath(p).name`: the final path component.  The
pathlib parser drops empty and `.` components, so the name is the last real
segment of the slash-separated string. -/
def pathName (p : String) : String :=
  String.mk (((splitOnChar '/' p.data).filter
    (fun part => !(part.isEmpty || part == ['.']))).getLastD [])

/-- Embeds `Path.stem` restricted to a file name: strip the suffix after the
last dot, provided that dot is neither the first nor the last character
(`0 < i < len(name) - 1` in CPython's suffix computation). -/
def stemCore (n : List Char) : List Char :=
  match rfindIdx '.' n with
  | none => n
  | some i => if 0 < i ∧ i + 1 < n.length then n.take i else n

/-- Embeds `src_path.stem`: the file name of `p` without its final suffix. -/
def stem (p : String) : String :=
  String.mk (stemCore (pathName p).data)

/-- Embeds `Path.joinpath` under a string root on POSIX: each part is a
slash-free segment, and pathlib ignores empty and `.` parts. -/
def joinPath (root : String) (parts : List (List Char)) : String :=
  parts.foldl
    (fun acc part =>
      if part.isEmpty || part == ['.'] then acc else acc ++ "/" ++ String.mk part)
    root

/-- The fixed storage root `STORAGE_DIR = BASE_DIR / "storage"`.  `BASE_DIR`
is the directory holding the program, so only the trailing segment is
meaningful to the claims; the constant stands for the whole absolute root. -/
def STORAGE_DIR : String := "storage"

/-- One entry of `data["scripts"]`: the dict written by `cmd_add_script` with
keys `path`, `backup`, `category`, `note`. -/
structure ScriptRecord where
  path : String
  backup : String
  category : String
  note : String
  deriving DecidableEq

/-- The persisted document shape: `{"scripts": {...}, "categories": {...}}`,
keyed by alias and by category path respectively. -/
structure Registry where
  scripts : List (String × ScriptRecord)
  categories : List (String × String)
  deriving DecidableEq

/-- The fresh registry `{"scripts": {}, "categories": {}}`. -/
def emptyRegistry : Registry := ⟨[], []⟩

/-- Outcome of the file read performed by `load_data` when `DATA_FILE`
exists: either `open`/`json.load` raised (any exception is caught), or it
produced the registry document. -/
inductive ReadResult where
  | failure
  | success (reg : Registry)
  deriving DecidableEq

/-- Embeds `load_data`: a missing file or any read/parse failure falls back
to the fresh empty registry; a successful parse is returned as-is. -/
def load_data (fileExists : Bool) (r : ReadResult) : Registry :=
  if !fileExists then emptyRegistry
  else
    match r with
    | .failure => emptyRegistry
    | .success reg => reg

/-- JSON values, the codomain of `json.load` and domain of `json.dump`. -/
inductive Json where
  | null : Json
  | bool (b : Bool) : Json
  | num (n : Int) : Json
  | str (s : String) : Json
  | arr (elems : List Json) : Json
  | obj (fields : List (String × Json)) : Json

/-- The JSON document of one script record, in the field order written by
`cmd_add_script`. -/
def ScriptRecord.toJson (r : ScriptRecord) : Json :=
  .obj [("path", .str r.path), ("backup", .str r.backup),
        ("category", .str r.category), ("note", .str r.note)]

/-- Embeds `save_data` at the JSON-value level: the document handed to
`json.dump` (the text layer `json.dump`/`json.load` is the standard library
and transports a value losslessly). -/
def save_data (reg : Registry) : Json :=
  .obj [("scripts", .obj (reg.scripts.map (fun kv => (kv.1, kv.2.toJson)))),
        ("categories", .obj (reg.categories.map (fun kv => (kv.1, .str kv.2))))]

/-- Reading a JSON value back as a string, as the dynamic field accesses
`info["path"]` etc. require. -/
def Json.asStr : Json → Option String
  | .str s => some s
  | _ => none

/-- Reading a JSON value back as an object. -/
def Json.asObj : Json → Option (List (String × Json))
  | .obj fs => some fs
  | _ => none

/-- Reading one script record back from its JSON document, via the field
names the program accesses (`path`, `backup`, `category`, `note`). -/
def decodeRecord (j : Json) : Option ScriptRecord := do
  let fs ← j.asObj
  let p ← (lookupA "path" fs).bind Json.asStr
  let b ← (lookupA "backup" fs).bind Json.asStr
  let c ← (lookupA "category" fs).bind Json.asStr
  let n ← (lookupA "note" fs).bind Json.asStr
  pure ⟨p, b, c, n⟩

/-- Reading every entry of a JSON object back through a per-value reader,
preserving order. -/
def decodeEntries {α : Type} (f : Json → Option α) :
    List (String × Json) → Option (List (String × α))
  | [] => some []
  | (k, v) :: rest => do
    let a ← f v
    let tail ← decodeEntries f rest
    pure ((k, a) :: tail)

/-- Reading the whole registry back from the persisted JSON document. -/
def decodeRegistry (j : Json) : Option Registry := do
  let fs ← j.asObj
  let sObj ← (lookupA "scripts" fs).bind Json.asObj
  let cObj ← (lookupA "categories" fs).bind Json.asObj
  let scripts ← decodeEntries decodeRecord sObj
  let categories ← decodeEntries Json.asStr cObj
  pure ⟨scripts, categories⟩

/-- How `cmd_add_script` can end: success (registry saved), a reported error
and early return with no registry write (missing source, failed copy), or an
uncaught exception from `mkdir` — which likewise precedes any registry
write. -/
inductive AddStatus where
  | ok
  | errMissing
  | errCopy
  | crashMkdir
  deriving DecidableEq

/-- The persisted registry after a `cmd_add_script` invocation together with
how the invocation ended. -/
structure AddOutcome where
  registry : Registry
  status : AddStatus
  deriving DecidableEq

/-- Embeds the alias-collision loop of `cmd_add_script`: starting from the
stem, append `_1`, `_2`, … until the candidate is unused, stopping early when
the colliding record already holds the identical source path.  The loop is
run with fuel `|scripts| + 1`, enough for every reachable registry since each
extra round consumes a distinct existing key. -/
def findAliasAux (scripts : List (String × ScriptRecord)) (srcPath orig : String) :
    Nat → String → Nat → String
  | 0, current, _ => current
  | fuel + 1, current, counter =>
    match lookupA current scripts with
    | none => current
    | some r =>
      if r.path = srcPath then current
      else findAliasAux scripts srcPath orig fuel (orig ++ "_" ++ Nat.repr counter) (counter + 1)

/-- The alias `cmd_add_script` registers a script under, given its stem and
resolved source path. -/
def findAlias (scripts : List (String × ScriptRecord)) (orig srcPath : String) : String :=
  findAliasAux scripts srcPath orig (scripts.length + 1) orig 1

/-- Embeds `cmd_add_script`.  `fileResolved` is `str(src_path.resolve())`
(resolution is an OS call; the claims quantify over resolved paths).  The
three flags stand for the environment-dependent outcomes of `src_path.exists()`,
`cat_dir.mkdir(parents=True)` and `shutil.copy2`; every failure branch
returns before `save_data`, so the persisted registry is the input one. -/
def cmd_add_script (srcExists mkdirOk copyOk : Bool)
    (categoryArg fileResolved note : String) (reg : Registry) : AddOutcome :=
  let category := replaceBackslash categoryArg
  if !srcExists then ⟨reg, .errMissing⟩
  else if !mkdirOk then ⟨reg, .crashMkdir⟩
  else
    let catDir := joinPath STORAGE_DIR (splitOnChar '/' category.data)
    let backupPath := joinPath catDir [(pathName fileResolved).data]
    if !copyOk then ⟨reg, .errCopy⟩
    else
      let al := findAlias reg.scripts (stem fileResolved) fileResolved
      let record : ScriptRecord := ⟨fileResolved, backupPath, category, note⟩
      let scripts := updateAssoc reg.scripts al record
      let categories :=
        match lookupA category reg.categories with
        | none => reg.categories ++ [(category, "")]
        | some _ => reg.categories
      ⟨⟨scripts, categories⟩, .ok⟩

/-- Embeds `cmd_add_category`: normalize the path and upsert the note. -/
def cmd_add_category (name note : String) (reg : Registry) : Registry :=
  { reg with categories := updateAssoc reg.categories (replaceBackslash name) note }

/-- Embeds `cmd_update_note`: the Boolean is `true` when the alias is absent
and the error is reported, leaving the persisted registry unchanged;
otherwise the record's note is overwritten and the registry saved. -/
def cmd_update_note (al note : String) (reg : Registry) : Registry × Bool :=
  match lookupA al reg.scripts with
  | none => (reg, true)
  | some r =>
    ({ reg with scripts := updateAssoc reg.scripts al ⟨r.path, r.backup, r.category, note⟩ },
     false)

/-- The reserved command tokens of `main` (line 171). -/
def reservedTokens : List String := ["-add", "-l", "-cat", "-n", "-h", "--help"]

/-- Embeds the alias-resolution step of `main`: an exact registered alias
wins; otherwise a dashed, non-reserved token whose dash-stripped form is
registered resolves to that form; otherwise the token stands unchanged. -/
def resolveTarget (scripts : List (String × ScriptRecord)) (firstArg : String) : String :=
  if (lookupA firstArg scripts).isSome then firstArg
  else if startsWithDash firstArg = true ∧ firstArg ∉ reservedTokens ∧
      (lookupA (stripDashes firstArg) scripts).isSome then
    stripDashes firstArg
  else firstArg

/-- What `main` decides to do with `sys.argv[1:]`: run a registered script
with the remaining argv, or fall through to the management-command parser. -/
inductive Dispatch where
  | runScript (al : String) (extraArgs : List String)
  | management
  deriving DecidableEq

/-- Embeds the dispatch decision of `main`: when the resolved first token is
a registered alias the script runs with the remaining argv; otherwise the
management parser takes over (also with an empty argv). -/
def dispatch (reg : Registry) (argv : List String) : Dispatch :=
  match argv with
  | [] => .management
  | firstArg :: rest =>
    let target := resolveTarget reg.scripts firstArg
    if (lookupA target reg.scripts).isSome then .runScript target rest
    else .management

/-- The registry produced by three successful adds from an empty registry:
first source `p1`, then `p2`, then `p1` again, all under category `cat`. -/
def afterThreeAdds (cat p1 p2 n1 n2 n3 : String) : Registry :=
  (cmd_add_script true true true cat p1 n3
    ((cmd_add_script true true true cat p2 n2
      ((cmd_add_script true true true cat p1 n1 emptyRegistry).registry)).registry)).registry

theorem string_ext {s t : String} (h : s.data = t.data) : s = t := by
  cases s; cases t; cases h; rfl

theorem string_data_append (s t : String) : (s ++ t).data = s.data ++ t.data := by
  cases s; cases t; rfl

theorem string_append_assoc (s t u : String) : (s ++ t) ++ u = s ++ (t ++ u) := by
  apply string_ext
  simp [string_data_append]

theorem string_self_ne_append (s t : String) (ht : t.data ≠ []) : s ≠ s ++ t := by
  intro h
  have hd := congrArg String.data h
  rw [string_data_append] at hd
  have hlen := congrArg List.length hd
  rw [List.length_append] at hlen
  have hzero : t.data.length = 0 := by omega
  exact ht (List.length_eq_zero.mp hzero)

theorem string_append_right_ne (s t u : String) (h : t.data ≠ u.data) :
    s ++ t ≠ s ++ u := by
  intro heq
  have hd := congrArg String.data heq
  rw [string_data_append, string_data_append] at hd
  exact h (List.append_cancel_left hd)

theorem lookupA_updateAssoc_self {α : Type u} (l : List (String × α)) (k : String) (v : α) :
    lookupA k (updateAssoc l k v) = some v := by
  induction l with
  | nil => simp [updateAssoc, lookupA]
  | cons kv rest ih =>
    obtain ⟨k2, v2⟩ := kv
    by_cases h : k2 = k
    · subst h
      simp [updateAssoc, lookupA]
    · simp [updateAssoc, lookupA, h, ih]

theorem updateAssoc_idem {α : Type u} (l : List (String × α)) (k : String) (v : α) :
    updateAssoc (updateAssoc l k v) k v = updateAssoc l k v := by
  induction l with
  | nil => simp [updateAssoc]
  | cons kv rest ih =>
    obtain ⟨k2, v2⟩ := kv
    by_cases h : k2 = k
    · subst h
      simp [updateAssoc]
    · simp [updateAssoc, h, ih]

theorem lookupA_append_right {α : Type u} (l : List (String × α)) (k : String) (v : α)
    (h : lookupA k l = none) : lookupA k (l ++ [(k, v)]) = some v := by
  induction l with
  | nil => simp [lookupA]
  | cons kv rest ih =>
    obtain ⟨k2, v2⟩ := kv
    by_cases hk : k2 = k
    · simp [lookupA, hk] at h
    · simp [lookupA, hk] at h ⊢
      exact ih h

/-- C4: whenever the source file of an add invocation does not exist, or the
archive copy step fails, the persisted registry is left completely unchanged
(no script record and no category entry is written) and the corresponding
error is reported by the early-returning branch. -/
theorem C4_add_failure_no_mutation (srcExists mkdirOk copyOk : Bool)
    (cat file note : String) (reg : Registry)
    (h : srcExists = false ∨ (mkdirOk = true ∧ copyOk = false)) :
    (cmd_add_script srcExists mkdirOk copyOk cat file note reg).registry = reg ∧
    ((cmd_add_script srcExists mkdirOk copyOk cat file note reg).status =
        AddStatus.errMissing ∨
      (cmd_add_script srcExists mkdirOk copyOk cat file note reg).status =
        AddStatus.errCopy) := by
  rcases h with h | ⟨h1, h2⟩
  · subst h
    simp [cmd_add_script]
  · subst h1; subst h2
    cases srcExists <;> simp [cmd_add_script]

/-- C4 witness: a concrete failing add (missing source) leaves a concrete
registry untouched. -/
theorem C4_add_failure_no_mutation_witness :
    (false = false ∨ (true = true ∧ true = false)) ∧
    ((cmd_add_script false true true "tools" "/tmp/f.py" "n" emptyRegistry).registry =
        emptyRegistry ∧
      ((cmd_add_script false true true "tools" "/tmp/f.py" "n" emptyRegistry).status =
          AddStatus.errMissing ∨
        (cmd_add_script false true true "tools" "/tmp/f.py" "n" emptyRegistry).status =
          AddStatus.errCopy)) :=
  ⟨Or.inl rfl,
   C4_add_failure_no_mutation false true true "tools" "/tmp/f.py" "n" emptyRegistry
     (Or.inl rfl)⟩

/-- C5: when the persisted file is missing, or reading/parsing it fails for
any reason, `load_data` returns the fresh empty registry (and, being a total
function, never raises to its caller). -/
theorem C5_load_fallback (fileExists : Bool) (r : ReadResult)
    (h : fileExists = false ∨ r = ReadResult.failure) :
    load_data fileExists r = emptyRegistry := by
  rcases h with h | h
  · subst h; rfl
  · subst h; cases fileExists <;> rfl

/-- C5 witness: the concrete missing-file read yields the empty registry. -/
theorem C5_load_fallback_witness :
    (false = false ∨ ReadResult.failure = ReadResult.failure) ∧
      load_data false ReadResult.failure = emptyRegistry :=
  ⟨Or.inl rfl, C5_load_fallback false ReadResult.failure (Or.inl rfl)⟩

/-- C6: a note update on an unregistered alias reports the error and leaves
the registry unchanged, and that is the only failure mode; on a registered
alias it succeeds and the stored record's note becomes the supplied one. -/
theorem C6_update_note (al note : String) (reg : Registry) :
    ((cmd_update_note al note reg).2 = true ↔ lookupA al reg.scripts = none) ∧
    ((cmd_update_note al note reg).2 = true → (cmd_update_note al note reg).1 = reg) ∧
    (∀ r, lookupA al reg.scripts = some r →
      (cmd_update_note al note reg).2 = false ∧
      lookupA al (cmd_update_note al note reg).1.scripts =
        some ⟨r.path, r.backup, r.category, note⟩ ∧
      (cmd_update_note al note reg).1.categories = reg.categories) := by
  rcases hl : lookupA al reg.scripts with _ | r
  · simp [cmd_update_note, hl]
  · simp [cmd_update_note, hl, lookupA_updateAssoc_self]

/-- C6 witness: a concrete successful note update rewrites exactly the note
field of the registered record. -/
theorem C6_update_note_witness :
    (cmd_update_note "a" "new"
        (Registry.mk [("a", ScriptRecord.mk "p" "b" "c" "old")] [])).2 = false ∧
    lookupA "a" (cmd_update_note "a" "new"
        (Registry.mk [("a", ScriptRecord.mk "p" "b" "c" "old")] [])).1.scripts =
      some (ScriptRecord.mk "p" "b" "c" "new") ∧
    (cmd_update_note "a" "new"
        (Registry.mk [("a", ScriptRecord.mk "p" "b" "c" "old")] [])).1.categories =
      (Registry.mk [("a", ScriptRecord.mk "p" "b" "c" "old")] []).categories :=
  (C6_update_note "a" "new" (Registry.mk [("a", ScriptRecord.mk "p" "b" "c" "old")] [])).2.2
    (ScriptRecord.mk "p" "b" "c" "old") rfl

/-- C7: the category-annotate operation is idempotent — running it twice with
the same (raw) path and note equals running it once. -/
theorem C7_category_upsert_idem (name note : String) (reg : Registry) :
    cmd_add_category name note (cmd_add_category name note reg) =
      cmd_add_category name note reg := by
  simp [cmd_add_category, updateAssoc_idem]

/-- C9: a successful add records, under the alias it selects, a backup path
equal to the fixed storage root joined with the slash-separated segments of
the category (after backslash normalization) joined with the original file
name, and a category field holding the normalized path. -/
theorem C9_backup_path (cat file note : String) (reg : Registry) :
    (cmd_add_script true true true cat file note reg).status = AddStatus.ok ∧
    lookupA (findAlias reg.scripts (stem file) file)
        (cmd_add_script true true true cat file note reg).registry.scripts =
      some (ScriptRecord.mk file
        (joinPath (joinPath STORAGE_DIR (splitOnChar '/' (replaceBackslash cat).data))
          [(pathName file).data])
        (replaceBackslash cat) note) := by
  cases hl : lookupA (replaceBackslash cat) reg.categories <;>
    simp [cmd_add_script, hl, lookupA_updateAssoc_self]

/-- C10: every successful add upserts the script's normalized category into
the categories map — inserting it with an empty note when absent and leaving
the existing note untouched when present — so the added script's category is
always a key of the categories map afterwards. -/
theorem C10_category_key_after_add (cat file note : String) (reg : Registry) :
    (cmd_add_script true true true cat file note reg).status = AddStatus.ok ∧
    (lookupA (replaceBackslash cat) reg.categories = none →
      (cmd_add_script true true true cat file note reg).registry.categories =
        reg.categories ++ [(replaceBackslash cat, "")] ∧
      lookupA (replaceBackslash cat)
          (cmd_add_script true true true cat file note reg).registry.categories =
        some "") ∧
    (∀ t, lookupA (replaceBackslash cat) reg.categories = some t →
      (cmd_add_script true true true cat file note reg).registry.categories =
        reg.categories ∧
      lookupA (replaceBackslash cat)
          (cmd_add_script true true true cat file note reg).registry.categories =
        some t) ∧
    (lookupA (replaceBackslash cat)
        (cmd_add_script true true true cat file note reg).registry.categories).isSome =
      true := by
  cases hl : lookupA (replaceBackslash cat) reg.categories with
  | none =>
    refine ⟨?_, ?_, ?_, ?_⟩ <;>
      simp [cmd_add_script, hl, lookupA_append_right reg.categories (replaceBackslash cat) "" hl]
  | some t =>
    refine ⟨?_, ?_, ?_, ?_⟩ <;> simp [cmd_add_script, hl]

/-- C10 witness: a concrete add into a fresh registry inserts its category
with an empty note. -/
theorem C10_category_key_after_add_witness :
    (cmd_add_script true true true "tools" "/tmp/f.py" "n" emptyRegistry).registry.categories =
      [("tools", "")] ∧
    lookupA "tools"
        (cmd_add_script true true true "tools" "/tmp/f.py" "n" emptyRegistry).registry.categories =
      some "" :=
  (C10_category_key_after_add "tools" "/tmp/f.py" "n" emptyRegistry).2.1 rfl

/-- C2 counterexample: the claim says a reserved first token never runs a
registered script, yet with an alias spelled exactly `-l` in the registry the
dispatcher runs that script instead of the list command, because the exact
alias match is checked before the reserved-token guard. -/
theorem C2_counterexample :
    "-l" ∈ reservedTokens ∧
    dispatch (Registry.mk [("-l", ScriptRecord.mk "/s/l.py" "/b/l.py" "c" "")] []) ["-l"] =
      Dispatch.runScript "-l" [] := by
  decide

/-- C2 (amended): a reserved first token reaches the management-command
parser, and never runs a script, provided no registered alias has that exact
spelling; the reserved-token guard only blocks the dash-stripping fallback. -/
theorem C2_reserved_token_dispatch (reg : Registry) (tok : String) (rest : List String)
    (hres : tok ∈ reservedTokens) (hno : lookupA tok reg.scripts = none) :
    dispatch reg (tok :: rest) = Dispatch.management := by
  simp [dispatch, resolveTarget, hres, hno]

/-- C2 witness: `-l` reaches the management parser even when an alias `l` is
registered. -/
theorem C2_reserved_token_dispatch_witness :
    "-l" ∈ reservedTokens ∧
    lookupA "-l" (Registry.mk [("l", ScriptRecord.mk "p" "b" "c" "n")] []).scripts = none ∧
    dispatch (Registry.mk [("l", ScriptRecord.mk "p" "b" "c" "n")] []) ["-l"] =
      Dispatch.management :=
  ⟨by decide, by decide,
   C2_reserved_token_dispatch (Registry.mk [("l", ScriptRecord.mk "p" "b" "c" "n")] [])
     "-l" [] (by decide) (by decide)⟩

/-- C3: a dashed first token with no exact alias match resolves (and runs)
via the dash-stripping fallback exactly when it is not a reserved token and
its dash-stripped form is a registered alias. -/
theorem C3_resolver_fallback (reg : Registry) (raw : String) (rest : List String)
    (hexact : lookupA raw reg.scripts = none)
    (hdash : startsWithDash raw = true) :
    dispatch reg (raw :: rest) = Dispatch.runScript (stripDashes raw) rest ↔
      (raw ∉ reservedTokens ∧ lookupA (stripDashes raw) reg.scripts ≠ none) := by
  cases hs : lookupA (stripDashes raw) reg.scripts with
  | none =>
    by_cases hres : raw ∈ reservedTokens <;>
      simp [dispatch, resolveTarget, hexact, hdash, hres, hs]
  | some v =>
    by_cases hres : raw ∈ reservedTokens <;>
      simp [dispatch, resolveTarget, hexact, hdash, hres, hs]

/-- C3 witness: `--foo` falls back to the registered alias `foo`, while the
reserved `-l` can never reach an alias `l` this way. -/
theorem C3_resolver_fallback_witness :
    lookupA "--foo" (Registry.mk [("foo", ScriptRecord.mk "p" "b" "c" "n")] []).scripts =
      none ∧
    startsWithDash "--foo" = true ∧
    (dispatch (Registry.mk [("foo", ScriptRecord.mk "p" "b" "c" "n")] []) ["--foo", "x"] =
        Dispatch.runScript (stripDashes "--foo") ["x"] ↔
      ("--foo" ∉ reservedTokens ∧
        lookupA (stripDashes "--foo")
          (Registry.mk [("foo", ScriptRecord.mk "p" "b" "c" "n")] []).scripts ≠ none)) :=
  ⟨by decide, by decide,
   C3_resolver_fallback (Registry.mk [("foo", ScriptRecord.mk "p" "b" "c" "n")] [])
     "--foo" ["x"] (by decide) (by decide)⟩

theorem decodeRecord_toJson (r : ScriptRecord) : decodeRecord r.toJson = some r := by
  simp [decodeRecord, ScriptRecord.toJson, Json.asObj, Json.asStr, lookupA]

theorem decodeEntries_map {α : Type} (f : Json → Option α) (g : α → Json)
    (hfg : ∀ a, f (g a) = some a) (l : List (String × α)) :
    decodeEntries f (l.map (fun kv => (kv.1, g kv.2))) = some l := by
  induction l with
  | nil => rfl
  | cons kv rest ih =>
    obtain ⟨k, a⟩ := kv
    simp [decodeEntries, hfg, ih]

/-- C8: serializing any registry of the defined shape to its persisted JSON
document and reading it back is lossless — the decoded registry equals the
original in content (including entry order). -/
theorem C8_roundtrip (reg : Registry) : decodeRegistry (save_data reg) = some reg := by
  have hs := decodeEntries_map decodeRecord ScriptRecord.toJson decodeRecord_toJson reg.scripts
  have hc := decodeEntries_map Json.asStr Json.str (fun s => rfl) reg.categories
  simp [decodeRegistry, save_data, Json.asObj, lookupA, hs, hc]

/-- C1: starting from the empty registry, adding a script with stem `s` from
source `p1`, then from a different source `p2`, then from `p1` again (all in
one category) leaves exactly the aliases `s` and `s_1`: the third add reuses
`s`, overwriting its record in place (its note becomes the third note while
its path stays `p1`), and no alias `s_2` is ever created. -/
theorem C1_alias_collision (cat s p1 p2 n1 n2 n3 : String)
    (h1 : stem p1 = s) (h2 : stem p2 = s) (hne : p1 ≠ p2) :
    (afterThreeAdds cat p1 p2 n1 n2 n3).scripts.map Prod.fst = [s, s ++ "_1"] ∧
    (lookupA s (afterThreeAdds cat p1 p2 n1 n2 n3).scripts).map ScriptRecord.path =
      some p1 ∧
    (lookupA s (afterThreeAdds cat p1 p2 n1 n2 n3).scripts).map ScriptRecord.note =
      some n3 ∧
    (lookupA (s ++ "_1") (afterThreeAdds cat p1 p2 n1 n2 n3).scripts).map ScriptRecord.path =
      some p2 ∧
    lookupA (s ++ "_2") (afterThreeAdds cat p1 p2 n1 n2 n3).scripts = none := by
  have e1 : ¬ (s = s ++ "_1") := string_self_ne_append s "_1" (by decide)
  have e2 : ¬ (s = s ++ "_2") := string_self_ne_append s "_2" (by decide)
  have e3 : ¬ (s ++ "_1" = s ++ "_2") := string_append_right_ne s "_1" "_2" (by decide)
  have hr1 : Nat.repr 1 = "1" := rfl
  have h12 : ("_" : String) ++ "1" = "_1" := rfl
  have hne2 : ¬ (p1 = p2) := hne
  simp [afterThreeAdds, cmd_add_script, findAlias, findAliasAux, lookupA, updateAssoc,
        h1, h2, hne2, e1, e2, e3, hr1, h12, string_append_assoc]

/-- C1 witness: the three concrete adds of `foo.py` from two directories
register exactly `foo` and `foo_1`. -/
theorem C1_alias_collision_witness :
    stem "/a/foo.py" = "foo" ∧ stem "/b/foo.py" = "foo" ∧
    "/a/foo.py" ≠ ("/b/foo.py" : String) ∧
    ((afterThreeAdds "tools" "/a/foo.py" "/b/foo.py" "x1" "x2" "x3").scripts.map Prod.fst =
        ["foo", "foo" ++ "_1"] ∧
      (lookupA "foo"
          (afterThreeAdds "tools" "/a/foo.py" "/b/foo.py" "x1" "x2" "x3").scripts).map
        ScriptRecord.path = some "/a/foo.py" ∧
      (lookupA "foo"
          (afterThreeAdds "tools" "/a/foo.py" "/b/foo.py" "x1" "x2" "x3").scripts).map
        ScriptRecord.note = some "x3" ∧
      (lookupA ("foo" ++ "_1")
          (afterThreeAdds "tools" "/a/foo.py" "/b/foo.py" "x1" "x2" "x3").scripts).map
        ScriptRecord.path = some "/b/foo.py" ∧
      lookupA ("foo" ++ "_2")
          (afterThreeAdds "tools" "/a/foo.py" "/b/foo.py" "x1" "x2" "x3").scripts = none) :=
  ⟨by decide, by decide, by decide,
   C1_alias_collision "tools" "foo" "/a/foo.py" "/b/foo.py" "x1" "x2" "x3"
     (by decide) (by decide) (by decide)⟩
